import Mathlib

/-!
# Verification of the SQL classification / risk-policy engine

Shallow embedding of the security-relevant parts of the
`mysql-mcp-server-sse` repository:

* `src/security/sql_analyzer.py` — `SQLOperationType.analyze_risk`,
  `_calculate_risk_level`, `_check_dangerous_patterns`,
  `_get_affected_tables`, `_estimate_impact`;
* `src/security/interceptor.py` — `SQLInterceptor.check_operation`;
* `src/security/sql_parser.py` — `SQLParser.parse_query` (with the
  `sqlparse` library abstracted as an oracle), `_fallback_parse`, and the
  multi-statement priority resolution;
* `src/db/mysql_operations.py` — the commit/rollback control flow of
  `execute_query`;
* `src/validators.py` — `SQLValidators.validate_identifier`.

Python string primitives (`str.strip`, `str.split`, `str.upper`,
substring membership, `re.match` for the one identifier pattern the code
uses) are embedded explicitly below.  `str.upper` is embedded for the
ASCII range (the only range the SQL keywords exercised by the code live
in); non-ASCII characters are left unchanged.
-/

/-! ## Python string primitives -/

/-- The whitespace characters of Python's default `str.strip` / `str.split`
(ASCII part): space, tab, newline, carriage return, vertical tab, form feed. -/
def pyIsSpace (c : Char) : Bool :=
  c = ' ' || c = '\t' || c = '\n' || c = '\r' || c = '\x0b' || c = '\x0c'

/-- ASCII uppercasing of one character, the behaviour of Python's
`str.upper` on the ASCII range; other characters are returned unchanged. -/
def pyUpperChar (c : Char) : Char :=
  if c = 'a' then 'A' else if c = 'b' then 'B' else if c = 'c' then 'C'
  else if c = 'd' then 'D' else if c = 'e' then 'E' else if c = 'f' then 'F'
  else if c = 'g' then 'G' else if c = 'h' then 'H' else if c = 'i' then 'I'
  else if c = 'j' then 'J' else if c = 'k' then 'K' else if c = 'l' then 'L'
  else if c = 'm' then 'M' else if c = 'n' then 'N' else if c = 'o' then 'O'
  else if c = 'p' then 'P' else if c = 'q' then 'Q' else if c = 'r' then 'R'
  else if c = 's' then 'S' else if c = 't' then 'T' else if c = 'u' then 'U'
  else if c = 'v' then 'V' else if c = 'w' then 'W' else if c = 'x' then 'X'
  else if c = 'y' then 'Y' else if c = 'z' then 'Z' else c

/-- Python `s.upper()`. -/
def pyUpper (s : String) : String := String.mk (s.data.map pyUpperChar)

/-- Drop trailing characters satisfying `p`. -/
def dropTrailing (p : Char → Bool) (l : List Char) : List Char :=
  (l.reverse.dropWhile p).reverse

/-- Python `s.strip()` (no argument): remove leading and trailing whitespace. -/
def pyStrip (s : String) : String :=
  String.mk (dropTrailing pyIsSpace (s.data.dropWhile pyIsSpace))

/-- Python `s.strip(chars)`: remove leading and trailing characters drawn
from `chars`.  The code uses it as `word.strip('\x60;')`. -/
def pyStripChars (chars : List Char) (s : String) : String :=
  String.mk (dropTrailing (· ∈ chars) (s.data.dropWhile (· ∈ chars)))

/-- Worker for `pySplit`: accumulate the current word (reversed) in `acc`. -/
def pySplitAux : List Char → List Char → List String
  | [], acc => if acc = [] then [] else [String.mk acc.reverse]
  | c :: cs, acc =>
    if pyIsSpace c then
      if acc = [] then pySplitAux cs []
      else String.mk acc.reverse :: pySplitAux cs []
    else pySplitAux cs (c :: acc)

/-- Python `s.split()` (no argument): split on runs of whitespace,
discarding empty pieces. -/
def pySplit (s : String) : List String := pySplitAux s.data []

/-- Membership of `pat` as a contiguous run of `hay` (worker on char lists). -/
def charsContains : List Char → List Char → Bool
  | [], pat => pat.isEmpty
  | h :: t, pat => pat.isPrefixOf (h :: t) || charsContains t pat

/-- Python `pat in hay` for strings: substring membership. -/
def pyContains (hay pat : String) : Bool := charsContains hay.data pat.data

/-- Python `s.count(c)` for a single-character needle. -/
def pyCountChar (s : String) (c : Char) : Nat := s.data.count c

/-! ## Data model (config.py and sql_analyzer.py) -/

/-- `SQLRiskLevel` (IntEnum) from `config.py` / `sql_analyzer.py`. -/
inductive SQLRiskLevel where
  | LOW | MEDIUM | HIGH | CRITICAL
deriving DecidableEq, Repr

/-- The IntEnum values `LOW = 1, MEDIUM = 2, HIGH = 3, CRITICAL = 4`. -/
def SQLRiskLevel.toNat : SQLRiskLevel → Nat
  | .LOW => 1
  | .MEDIUM => 2
  | .HIGH => 3
  | .CRITICAL => 4

/-- `EnvironmentType` from `config.py` / `sql_analyzer.py`. -/
inductive EnvironmentType where
  | DEVELOPMENT | PRODUCTION
deriving DecidableEq, Repr

/-- `SQLConfig.DDL_OPERATIONS` (`config.py`), identical to the analyzer's
instance attribute `ddl_operations` (`sql_analyzer.py`). -/
def DDL_OPERATIONS : List String :=
  ["CREATE", "ALTER", "DROP", "TRUNCATE", "RENAME"]

/-- `SQLConfig.DML_OPERATIONS` (`config.py`), identical to the analyzer's
`dml_operations`. -/
def DML_OPERATIONS : List String :=
  ["SELECT", "INSERT", "UPDATE", "DELETE", "MERGE"]

/-- `SQLConfig.METADATA_OPERATIONS` (`config.py`), identical to the
analyzer's `metadata_operations`. -/
def METADATA_OPERATIONS : List String :=
  ["SHOW", "DESC", "DESCRIBE", "EXPLAIN", "HELP",
   "ANALYZE", "CHECK", "CHECKSUM", "OPTIMIZE"]

/-- The environment-derived state of one `SQLOperationType` instance:
`env_type`, `allowed_risk_levels` and `blocked_patterns`
(`sql_analyzer.py`, `__init__`). -/
structure AnalyzerConfig where
  envType : EnvironmentType
  allowedRiskLevels : List SQLRiskLevel
  blockedPatterns : List String
deriving DecidableEq, Repr

/-- Abstraction of `re.search(pattern, text, re.IGNORECASE)` truthiness:
`.ok b` means the search ran and matched (`b = true`) or not; `.error ()`
models `re.error` raised by an invalid configured pattern. -/
def RegexOracle : Type := String → String → Except Unit Bool

/-- `estimated_impact` dictionary produced by `_estimate_impact`
(`sql_analyzer.py`).  `estimatedRows = none` models the `float('inf')`
sentinel. -/
structure EstimatedImpact where
  operation : String
  estimatedRows : Option Nat
  needsWhere : Bool
  hasWhere : Bool
deriving DecidableEq, Repr

/-- The dictionary returned by `SQLOperationType.analyze_risk`. -/
structure RiskAnalysis where
  operation : String
  operationType : String
  isDangerous : Bool
  affectedTables : List String
  estimatedImpact : EstimatedImpact
  riskLevel : SQLRiskLevel
  isAllowed : Bool
deriving DecidableEq, Repr

/-! ## Risk analyzer (sql_analyzer.py) -/

/-- `sql_query.split()[0].upper()` applied to the stripped query: the
leading keyword the analyzer and the interceptor both use.  (The Python
code indexes `[0]` on a list that is non-empty on every reachable path;
`headD ""` yields `""` on the unreachable empty case.) -/
def leadingOperation (sqlQuery : String) : String :=
  pyUpper ((pySplit (pyStrip sqlQuery)).headD "")

/-- `sql_upper.split()[0]` as used inside `_check_dangerous_patterns`
(split of the uppercased text). -/
def firstWordOfUpper (s : String) : String :=
  (pySplit (pyUpper s)).headD ""

/-- The pattern loop of `_check_dangerous_patterns`: scan the configured
patterns with `re.search`, short-circuiting on the first match; a raised
`re.error` propagates. -/
def scanBlockedPatterns (oracle : RegexOracle) (sqlUpper : String) :
    List String → Except Unit Bool
  | [] => .ok false
  | p :: ps =>
    match oracle p sqlUpper with
    | .error e => .error e
    | .ok true => .ok true
    | .ok false => scanBlockedPatterns oracle sqlUpper ps

/-- `SQLOperationType._check_dangerous_patterns` (`sql_analyzer.py`):
in PRODUCTION every statement whose first word is not `SELECT` is
dangerous; otherwise the blocked patterns are scanned. -/
def check_dangerous_patterns (cfg : AnalyzerConfig) (oracle : RegexOracle)
    (sqlQuery : String) : Except Unit Bool :=
  let sqlUpper := pyUpper sqlQuery
  if cfg.envType = .PRODUCTION ∧ firstWordOfUpper sqlQuery ≠ "SELECT" then
    .ok true
  else
    scanBlockedPatterns oracle sqlUpper cfg.blockedPatterns

/-- `SQLOperationType._calculate_risk_level` (`sql_analyzer.py`). -/
def calculate_risk_level (cfg : AnalyzerConfig) (sqlQuery operation : String)
    (isDangerous : Bool) : SQLRiskLevel :=
  if isDangerous then .CRITICAL
  else if operation ∈ METADATA_OPERATIONS then .LOW
  else if cfg.envType = .PRODUCTION ∧ operation ≠ "SELECT" then .CRITICAL
  else if operation ∈ DDL_OPERATIONS then
    (if operation = "DROP" ∨ operation = "TRUNCATE" then .CRITICAL else .HIGH)
  else if operation = "SELECT" then .LOW
  else if operation = "INSERT" then .MEDIUM
  else if operation = "UPDATE" then
    (if ¬ (pyContains (pyUpper sqlQuery) "WHERE" = true) then .HIGH else .MEDIUM)
  else if operation = "DELETE" then
    (if ¬ (pyContains (pyUpper sqlQuery) "WHERE" = true) then .CRITICAL else .MEDIUM)
  else .HIGH

/-- The scan in `_get_affected_tables` / `_fallback_parse`: a word in
FROM/JOIN/UPDATE/INTO/TABLE marks the next word as a table name, after
stripping backtick and semicolon and excluding SELECT/WHERE/SET. -/
def collectTables : List String → List String
  | w₁ :: w₂ :: rest =>
    let tail := collectTables (w₂ :: rest)
    if w₁ ∈ ["FROM", "JOIN", "UPDATE", "INTO", "TABLE"] then
      let t := pyStripChars [Char.ofNat 96, ';'] w₂
      if t ∈ ["SELECT", "WHERE", "SET"] then tail else t :: tail
    else tail
  | _ => []

/-- `SQLOperationType._get_affected_tables` (`sql_analyzer.py`); the final
`list(set(...))` is modelled as first-occurrence deduplication (the claims
never depend on the set's iteration order). -/
def get_affected_tables (sqlQuery : String) : List String :=
  (collectTables (pySplit (pyUpper sqlQuery))).dedup

/-- `SQLOperationType._estimate_impact` (`sql_analyzer.py`). -/
def estimate_impact (cfg : AnalyzerConfig) (sqlQuery : String) : EstimatedImpact :=
  let operation := pyUpper ((pySplit sqlQuery).headD "")
  let hasWhere := pyContains (pyUpper sqlQuery) "WHERE"
  { operation := operation
    estimatedRows :=
      if cfg.envType = .PRODUCTION then
        (if operation = "SELECT" then some 100 else none)
      else
        (if operation = "SELECT" then some 100
         else if operation = "UPDATE" ∨ operation = "DELETE" then
           (if hasWhere then some 1000 else none)
         else some 0)
    needsWhere := operation = "UPDATE" ∨ operation = "DELETE"
    hasWhere := hasWhere }

/-- The hard-coded dictionary `analyze_risk` returns for empty input. -/
def emptyRiskAnalysis : RiskAnalysis :=
  { operation := ""
    operationType := "UNKNOWN"
    isDangerous := true
    affectedTables := []
    estimatedImpact :=
      { operation := "", estimatedRows := some 0
        needsWhere := false, hasWhere := false }
    riskLevel := .HIGH
    isAllowed := false }

/-- `SQLOperationType.analyze_risk` (`sql_analyzer.py`).  The result is
`.error ()` when a configured blocked pattern raises `re.error`. -/
def analyze_risk (cfg : AnalyzerConfig) (oracle : RegexOracle)
    (sqlQuery : String) : Except Unit RiskAnalysis :=
  let sql := pyStrip sqlQuery
  if sql = "" then .ok emptyRiskAnalysis
  else
    let operation := leadingOperation sqlQuery
    match check_dangerous_patterns cfg oracle sql with
    | .error e => .error e
    | .ok isDangerous =>
      let riskLevel := calculate_risk_level cfg sql operation isDangerous
      .ok { operation := operation
            operationType := if operation ∈ DDL_OPERATIONS then "DDL" else "DML"
            isDangerous := isDangerous
            affectedTables := get_affected_tables sql
            estimatedImpact := estimate_impact cfg sql
            riskLevel := riskLevel
            isAllowed := decide (riskLevel ∈ cfg.allowedRiskLevels) }

/-! ## Admission interceptor (interceptor.py) -/

/-- Reasons carried by `SecurityException` in `SQLInterceptor.check_operation`;
`internal` is the catch-all re-raise of a non-`SecurityException` exception. -/
inductive SecReason where
  | emptySql
  | tooLong
  | invalidFormat
  | unsupported (operation : String)
  | dangerous (operation : String)
  | notAllowed (riskLevel : SQLRiskLevel)
  | internal
deriving DecidableEq, Repr

/-- Errors the body of `check_operation` can raise before the interceptor's
`except` clauses run: `secEx` is a `SecurityException`, `pyEx` any other
Python exception (here: `re.error` escaping `analyze_risk`). -/
inductive BodyErr where
  | secEx (r : SecReason)
  | pyEx
deriving DecidableEq, Repr

/-- The literal `supported_operations` set of `SQLInterceptor.check_operation`
(`interceptor.py`).  Note: `RENAME` is absent, unlike `DDL_OPERATIONS`. -/
def supportedOperations : List String :=
  ["SELECT", "INSERT", "UPDATE", "DELETE",
   "CREATE", "ALTER", "DROP", "TRUNCATE", "MERGE",
   "SHOW", "DESC", "DESCRIBE", "EXPLAIN", "HELP",
   "ANALYZE", "CHECK", "CHECKSUM", "OPTIMIZE"]

/-- `self.max_sql_length` hard-coded in `SQLInterceptor.__init__`. -/
def maxSqlLength : Nat := 1000

/-- The `try` body of `SQLInterceptor.check_operation` (`interceptor.py`),
before its `except` clauses. -/
def check_operation_body (cfg : AnalyzerConfig) (oracle : RegexOracle)
    (sqlQuery : String) : Except BodyErr Bool :=
  if pyStrip sqlQuery = "" then .error (.secEx .emptySql)
  else if sqlQuery.length > maxSqlLength then .error (.secEx .tooLong)
  else
    match (pySplit (pyStrip sqlQuery)).head? with
    | none => .error (.secEx .invalidFormat)
    | some w =>
      if pyUpper w ∈ supportedOperations then
        match analyze_risk cfg oracle sqlQuery with
        | .error _ => .error .pyEx
        | .ok ra =>
          if ra.isDangerous then .error (.secEx (.dangerous ra.operation))
          else if ra.isAllowed then .ok true
          else .error (.secEx (.notAllowed ra.riskLevel))
      else .error (.secEx (.unsupported (pyUpper w)))

/-- `SQLInterceptor.check_operation` (`interceptor.py`): the body wrapped in
`except SecurityException: raise` / `except Exception: raise
SecurityException(...)`. -/
def check_operation (cfg : AnalyzerConfig) (oracle : RegexOracle)
    (sqlQuery : String) : Except SecReason Bool :=
  match check_operation_body cfg oracle sqlQuery with
  | .ok b => .ok b
  | .error (.secEx r) => .error r
  | .error .pyEx => .error .internal

/-! ## Statement classifier (sql_parser.py) -/

/-- The features `parse_query` reads off one `sqlparse` statement object:
`_get_operation_type`, `_extract_tables`, `_has_where_clause`,
`_has_limit_clause` applied to that statement.  The `sqlparse` library
itself is outside the embedding; a list of these records is supplied by
the parse oracle. -/
structure SqlparseStmt where
  op : String
  tables : List String
  hasWhere : Bool
  hasLimit : Bool
deriving DecidableEq, Repr

/-- The dictionary returned by `SQLParser.parse_query`. -/
structure ParsedStatement where
  operationType : String
  tables : List String
  hasWhere : Bool
  hasLimit : Bool
  isValid : Bool
  normalizedQuery : String
  category : String
  multiStatement : Bool
  statementCount : Nat
deriving DecidableEq, Repr

/-- `SQLParser._get_operation_category` (`sql_parser.py`), also the
category chain of `_fallback_parse`. -/
def get_operation_category (operationType : String) : String :=
  if operationType ∈ DDL_OPERATIONS then "DDL"
  else if operationType ∈ DML_OPERATIONS then "DML"
  else if operationType ∈ METADATA_OPERATIONS then "METADATA"
  else "UNKNOWN"

/-- The multi-statement priority resolution of `SQLParser.parse_query`
(`sql_parser.py`, the `if is_multi_statement and len(parsed) > 1` block),
as a function of the member statements' operation types.  Returns the
resolved `(category, operation_type)`; for a single statement it returns
the first (only) statement's category and operation unchanged, exactly as
the surrounding code does. -/
def resolveMultiStatement (ops : List String) : String × String :=
  let operationType := ops.headD ""
  let category := get_operation_category operationType
  if 1 < ops.length then
    let categories := ops.map get_operation_category
    if "DDL" ∈ categories then
      ("DDL",
        if "DROP" ∈ ops then "DROP"
        else if "TRUNCATE" ∈ ops then "TRUNCATE"
        else if "ALTER" ∈ ops then "ALTER"
        else if "CREATE" ∈ ops then "CREATE"
        else operationType)
    else if "DML" ∈ categories then
      ("DML",
        if "DELETE" ∈ ops then "DELETE"
        else if "UPDATE" ∈ ops then "UPDATE"
        else if "INSERT" ∈ ops then "INSERT"
        else if "SELECT" ∈ ops then "SELECT"
        else operationType)
    else (category, operationType)
  else (category, operationType)

/-- `SQLParser._fallback_parse` (`sql_parser.py`): the simple
whitespace-split parse used when `sqlparse` raises.  Returns the fields it
sets; the caller patches in `multi_statement` / `statement_count`. -/
def fallback_parse (sqlQuery : String) : ParsedStatement :=
  let sqlUpper := pyUpper (pyStrip sqlQuery)
  let parts := pySplit sqlUpper
  let operationType := parts.headD ""
  { operationType := operationType
    tables := (collectTables parts).dedup
    hasWhere := pyContains sqlUpper "WHERE"
    hasLimit := pyContains sqlUpper "LIMIT"
    isValid := operationType ≠ ""
    normalizedQuery := sqlQuery
    category := get_operation_category operationType
    multiStatement := false
    statementCount := 0 }

/-- The outcome of `sqlparse.format` + `sqlparse.parse` inside the `try`
of `parse_query`: `.ok (formatted, stmts)` on success, `.error ()` when
any exception is raised inside the `try` block. -/
def ParseOracle : Type := Except Unit (String × List SqlparseStmt)

/-- `SQLParser.parse_query` (`sql_parser.py`), with the `sqlparse` library
call abstracted by `oracle`. -/
def parse_query (sqlQuery : String) (oracle : ParseOracle) : ParsedStatement :=
  if pyStrip sqlQuery = "" then
    { operationType := "", tables := [], hasWhere := false, hasLimit := false
      isValid := false, normalizedQuery := "", category := "UNKNOWN"
      multiStatement := false, statementCount := 0 }
  else
    match oracle with
    | .error _ =>
      let r := fallback_parse sqlQuery
      { r with
        multiStatement := pyContains (pyStrip sqlQuery) ";"
        statementCount :=
          if pyStrip sqlQuery ≠ "" then pyCountChar sqlQuery ';' + 1 else 0 }
    | .ok (formatted, parsed) =>
      if parsed = [] then
        { operationType := "", tables := [], hasWhere := false, hasLimit := false
          isValid := false, normalizedQuery := formatted, category := "UNKNOWN"
          multiStatement := false, statementCount := 0 }
      else
        let resolved := resolveMultiStatement (parsed.map (·.op))
        { operationType := resolved.2
          tables := (parsed.flatMap (·.tables)).dedup
          hasWhere := parsed.any (·.hasWhere)
          hasLimit := parsed.any (·.hasLimit)
          isValid := true
          normalizedQuery := formatted
          category := resolved.1
          multiStatement := 1 < parsed.length
          statementCount := parsed.length }

/-! ## Query execution control flow (db/mysql_operations.py) -/

/-- Where the first `aiomysql.Error` of a run of `execute_query` is raised,
if any: during `cursor.execute`, during `connection.commit`, or during the
result fetch (`fetchall` / `fetchmany`). -/
structure DriverBehavior where
  execRaises : Bool
  commitRaises : Bool
  fetchRaises : Bool
deriving DecidableEq, Repr

/-- Success shapes of `execute_query`. -/
inductive ExecResultKind where
  | affectedRows
  | rows
deriving DecidableEq, Repr

/-- Errors surfaced by `execute_query`: `SecurityException` propagated from
the interceptor, or the `ValueError` raised from the `aiomysql.Error`
handler. -/
inductive ExecErr where
  | securityDenied
  | queryExecutionFailed
deriving DecidableEq, Repr

deriving instance DecidableEq for Except

/-- Observable outcome of one run of `execute_query`: the surfaced result
and whether `connection.rollback()` was attempted before surfacing. -/
structure ExecOutcome where
  result : Except ExecErr ExecResultKind
  rollbackAttempted : Bool
deriving DecidableEq, Repr

/-- The commit/rollback control flow of `execute_query`
(`db/mysql_operations.py`), abstracted over the admission outcome, the
parse result (`parsed_sql['category']`, `parsed_sql['operation_type']`)
and the driver's failure behaviour.  Faithful points: `parsed_sql` is
`None` until after `cursor.execute` succeeds, and the `aiomysql.Error`
handler attempts a rollback only when `parsed_sql` is set and its
`operation_type` is UPDATE/DELETE/INSERT. -/
def execute_query_flow (admission : Except Unit Unit)
    (category operationType : String) (d : DriverBehavior) : ExecOutcome :=
  match admission with
  | .error _ => { result := .error .securityDenied, rollbackAttempted := false }
  | .ok _ =>
    if d.execRaises then
      -- parsed_sql is still None here, so the rollback branch is skipped
      { result := .error .queryExecutionFailed, rollbackAttempted := false }
    else
      let mutation := operationType ∈ ["UPDATE", "DELETE", "INSERT"]
      if category = "DML" ∧ mutation then
        if d.commitRaises then
          { result := .error .queryExecutionFailed
            rollbackAttempted := decide mutation }
        else { result := .ok .affectedRows, rollbackAttempted := false }
      else if category = "METADATA" then
        if d.fetchRaises then
          { result := .error .queryExecutionFailed
            rollbackAttempted := decide mutation }
        else { result := .ok .rows, rollbackAttempted := false }
      else
        if d.fetchRaises then
          { result := .error .queryExecutionFailed
            rollbackAttempted := decide mutation }
        else { result := .ok .rows, rollbackAttempted := false }

/-! ## Identifier validation (validators.py) -/

/-- Membership in the character class `[a-zA-Z0-9_]`. -/
def isWordChar (c : Char) : Bool :=
  ('a' ≤ c && c ≤ 'z') || ('A' ≤ c && c ≤ 'Z') || ('0' ≤ c && c ≤ '9') || c = '_'

/-- Truthiness of Python's
`re.match(SQLValidators.IDENTIFIER_PATTERN, name)` with
`IDENTIFIER_PATTERN = '^[a-zA-Z0-9_]+$'`: a match exists iff the whole
string is a non-empty run of word characters, or such a run followed by a
single trailing newline — in Python `re`, `$` also matches just before a
newline that ends the string. -/
def identifierRegexMatch (name : String) : Bool :=
  let cs := name.data
  (!cs.isEmpty && cs.all isWordChar) ||
  (cs.getLast? = some '\n' && (!cs.dropLast.isEmpty && cs.dropLast.all isWordChar))

/-- `SQLValidators.validate_identifier` (`validators.py`): `.error ()`
models a raised `ValidationError`.  `validate_table_name`,
`validate_database_name` and `validate_column_name` are this function with
a different error-message label only. -/
def validate_identifier (name : String) : Except Unit Bool :=
  if name = "" then .error ()
  else if identifierRegexMatch name then .ok true
  else .error ()

/-! ## Helper lemmas -/

/- ASCII uppercasing neither creates nor destroys whitespace. -/
theorem pyIsSpace_pyUpperChar (c : Char) :
    pyIsSpace (pyUpperChar c) = pyIsSpace c := by
  by_cases h : pyIsSpace c = true
  · have h6 : c = ' ' ∨ c = '\t' ∨ c = '\n' ∨ c = '\r' ∨ c = '\x0b' ∨ c = '\x0c' := by
      simpa [pyIsSpace, or_assoc] using h
    rcases h6 with h6 | h6 | h6 | h6 | h6 | h6 <;> subst h6 <;> decide
  · have h' : pyIsSpace c = false := by simpa using h
    rw [h']
    unfold pyUpperChar
    simp only [apply_ite pyIsSpace, h',
    show pyIsSpace 'A' = false from rfl,
    show pyIsSpace 'B' = false from rfl,
    show pyIsSpace 'C' = false from rfl,
    show pyIsSpace 'D' = false from rfl,
    show pyIsSpace 'E' = false from rfl,
    show pyIsSpace 'F' = false from rfl,
    show pyIsSpace 'G' = false from rfl,
    show pyIsSpace 'H' = false from rfl,
    show pyIsSpace 'I' = false from rfl,
    show pyIsSpace 'J' = false from rfl,
    show pyIsSpace 'K' = false from rfl,
    show pyIsSpace 'L' = false from rfl,
    show pyIsSpace 'M' = false from rfl,
    show pyIsSpace 'N' = false from rfl,
    show pyIsSpace 'O' = false from rfl,
    show pyIsSpace 'P' = false from rfl,
    show pyIsSpace 'Q' = false from rfl,
    show pyIsSpace 'R' = false from rfl,
    show pyIsSpace 'S' = false from rfl,
    show pyIsSpace 'T' = false from rfl,
    show pyIsSpace 'U' = false from rfl,
    show pyIsSpace 'V' = false from rfl,
    show pyIsSpace 'W' = false from rfl,
    show pyIsSpace 'X' = false from rfl,
    show pyIsSpace 'Y' = false from rfl,
    show pyIsSpace 'Z' = false from rfl,
    ite_self]

theorem pySplitAux_map_upper (l : List Char) :
    ∀ acc : List Char,
      pySplitAux (l.map pyUpperChar) (acc.map pyUpperChar) =
        (pySplitAux l acc).map pyUpper := by
  induction l with
  | nil =>
    intro acc
    simp only [List.map_nil, pySplitAux]
    by_cases h : acc = []
    · subst h; simp
    · rw [if_neg (by simpa using h), if_neg h]
      simp [pyUpper, List.map_reverse]
  | cons c cs ih =>
    intro acc
    simp only [List.map_cons, pySplitAux, pyIsSpace_pyUpperChar c]
    by_cases hsp : pyIsSpace c = true
    · rw [if_pos hsp, if_pos hsp]
      by_cases h : acc = []
      · subst h
        simpa using ih []
      · rw [if_neg (by simpa using h), if_neg h, List.map_cons]
        have := ih []
        simp only [List.map_nil] at this
        rw [this]
        simp [pyUpper, List.map_reverse]
  
    · rw [if_neg hsp, if_neg hsp]
      have := ih (c :: acc)
      simpa using this

/-- Uppercasing commutes with whitespace splitting. -/
theorem pySplit_pyUpper (s : String) :
    pySplit (pyUpper s) = (pySplit s).map pyUpper := by
  have h := pySplitAux_map_upper s.data []
  simpa [pySplit, pyUpper] using h

theorem pyUpper_empty : pyUpper "" = "" := by decide

/-- The first word of the uppercased text is the uppercased first word:
relates `_check_dangerous_patterns`' `sql_upper.split()[0]` to
`analyze_risk`'s `sql_query.split()[0].upper()`. -/
theorem firstWordOfUpper_eq (s : String) :
    firstWordOfUpper s = pyUpper ((pySplit s).headD "") := by
  unfold firstWordOfUpper
  rw [pySplit_pyUpper]
  cases h : pySplit s with
  | nil => simp [pyUpper_empty]
  | cons a t => simp

/-- When no configured pattern matches (and none raises), the pattern scan
returns false. -/
theorem scanBlockedPatterns_ok_false (oracle : RegexOracle) (up : String)
    (ps : List String) (h : ∀ p ∈ ps, oracle p up = .ok false) :
    scanBlockedPatterns oracle up ps = .ok false := by
  induction ps with
  | nil => rfl
  | cons p ps ih =>
    have hp := h p (by simp)
    simp only [scanBlockedPatterns, hp]
    exact ih fun q hq => h q (by simp [hq])

/-- Value of `_check_dangerous_patterns` when no blocked pattern matches:
dangerous exactly when in PRODUCTION with a non-SELECT first word. -/
theorem check_dangerous_patterns_eq (cfg : AnalyzerConfig) (oracle : RegexOracle)
    (s : String) (h : ∀ p ∈ cfg.blockedPatterns, oracle p (pyUpper s) = .ok false) :
    check_dangerous_patterns cfg oracle s =
      .ok (decide (cfg.envType = .PRODUCTION ∧ firstWordOfUpper s ≠ "SELECT")) := by
  unfold check_dangerous_patterns
  by_cases hc : cfg.envType = .PRODUCTION ∧ firstWordOfUpper s ≠ "SELECT"
  · rw [if_pos hc]
    simp [hc]
  · rw [if_neg hc]
    rw [scanBlockedPatterns_ok_false oracle (pyUpper s) cfg.blockedPatterns h]
    simp [hc]

/-- Shape of `analyze_risk` on non-empty input once the dangerous check is
known. -/
theorem analyze_risk_eq (cfg : AnalyzerConfig) (oracle : RegexOracle)
    (sql : String) (b : Bool) (hs : pyStrip sql ≠ "")
    (hd : check_dangerous_patterns cfg oracle (pyStrip sql) = .ok b) :
    analyze_risk cfg oracle sql =
      .ok { operation := leadingOperation sql
            operationType :=
              if leadingOperation sql ∈ DDL_OPERATIONS then "DDL" else "DML"
            isDangerous := b
            affectedTables := get_affected_tables (pyStrip sql)
            estimatedImpact := estimate_impact cfg (pyStrip sql)
            riskLevel :=
              calculate_risk_level cfg (pyStrip sql) (leadingOperation sql) b
            isAllowed :=
              decide (calculate_risk_level cfg (pyStrip sql)
                        (leadingOperation sql) b ∈ cfg.allowedRiskLevels) } := by
  unfold analyze_risk
  rw [if_neg hs, hd]

/-- If the leading operation is empty the stripped query is non-trivial. -/
theorem pyStrip_ne_of_leadingOperation_mem (sql : String) (L : List String)
    (hnil : "" ∉ L) (h : leadingOperation sql ∈ L) : pyStrip sql ≠ "" := by
  intro he
  unfold leadingOperation at h
  rw [he] at h
  revert h
  have : pySplit "" = [] := by decide
  rw [this]
  simpa [pyUpper_empty] using hnil

/-! ## Concrete policies used by witnesses and counterexamples -/

/-- The analyzer state under the default configuration in DEVELOPMENT:
`ALLOWED_RISK_LEVELS` defaults to `LOW,MEDIUM`, no blocked patterns. -/
def devDefaultConfig : AnalyzerConfig := ⟨.DEVELOPMENT, [.LOW, .MEDIUM], []⟩

/-- The analyzer state in PRODUCTION with no explicit risk-level
configuration: `allowed_risk_levels` is forced to `{LOW}`. -/
def prodDefaultConfig : AnalyzerConfig := ⟨.PRODUCTION, [.LOW], []⟩

/-- A regex oracle under which no pattern matches (e.g. the empty
blocked-pattern list). -/
def noMatchOracle : RegexOracle := fun _ _ => .ok false

/-! ## Claim theorems -/

/-- C1 counterexample: on the input `SELECT 1; DROP TABLE x;` the risk
analysis assigns riskLevel = LOW (not CRITICAL) — the analyzer derives the
operation from the first whitespace token, `SELECT` — and the admission
check `check_operation` returns `True` instead of denying, under the
default policy in both DEVELOPMENT and PRODUCTION. -/
theorem c1_batch_with_drop_admitted :
    (analyze_risk devDefaultConfig noMatchOracle
        "SELECT 1; DROP TABLE x;").map (·.riskLevel) = .ok .LOW ∧
    check_operation devDefaultConfig noMatchOracle
        "SELECT 1; DROP TABLE x;" = .ok true ∧
    check_operation prodDefaultConfig noMatchOracle
        "SELECT 1; DROP TABLE x;" = .ok true := by
  refine ⟨by decide, by decide, by decide⟩

/-- C1 amended: for `SELECT 1; DROP TABLE x;` the parser's multi-statement
resolution does yield category DDL / operation DROP, but the risk analysis
— which never consults it — takes the leading token SELECT, computes
riskLevel = LOW with isAllowed = true, and the interceptor admits the
batch under the default policy in both environments. -/
theorem c1_amended_first_token_governs_risk :
    resolveMultiStatement ["SELECT", "DROP"] = ("DDL", "DROP") ∧
    (analyze_risk devDefaultConfig noMatchOracle
        "SELECT 1; DROP TABLE x;").map
          (fun r => (r.operation, r.riskLevel, r.isAllowed)) =
      .ok ("SELECT", .LOW, true) ∧
    (analyze_risk prodDefaultConfig noMatchOracle
        "SELECT 1; DROP TABLE x;").map
          (fun r => (r.operation, r.riskLevel, r.isAllowed)) =
      .ok ("SELECT", .LOW, true) ∧
    check_operation devDefaultConfig noMatchOracle
        "SELECT 1; DROP TABLE x;" = .ok true := by
  refine ⟨by decide, by decide, by decide, by decide⟩

/-- C2 counterexample: `SHOW TABLES` has a METADATA leading keyword and
matches no blocked pattern, yet in PRODUCTION the risk analysis returns
riskLevel = CRITICAL (the statement is flagged dangerous because its first
word is not SELECT), not LOW as the claim states. -/
theorem c2_metadata_critical_in_production :
    leadingOperation "SHOW TABLES" ∈ METADATA_OPERATIONS ∧
    (analyze_risk prodDefaultConfig noMatchOracle "SHOW TABLES").map
        (fun r => (r.riskLevel, r.isDangerous)) = .ok (.CRITICAL, true) ∧
    (analyze_risk prodDefaultConfig noMatchOracle "SHOW TABLES").map
        (·.riskLevel) ≠ .ok .LOW := by
  refine ⟨by decide, by decide, by decide⟩

/-- C3 counterexample: `UPDATE t SET a=1` has no WHERE clause and matches
no blocked pattern, yet in PRODUCTION its riskLevel is CRITICAL, not
exactly HIGH as the claim states for UPDATE. -/
theorem c3_update_no_where_critical_in_production :
    pyContains (pyUpper (pyStrip "UPDATE t SET a=1")) "WHERE" = false ∧
    (analyze_risk prodDefaultConfig noMatchOracle "UPDATE t SET a=1").map
        (·.riskLevel) = .ok .CRITICAL ∧
    (analyze_risk prodDefaultConfig noMatchOracle "UPDATE t SET a=1").map
        (·.riskLevel) ≠ .ok .HIGH := by
  refine ⟨by decide, by decide, by decide⟩

/-- C4 counterexample: a DELETE statement whose `cursor.execute` raises the
driver error surfaces `QueryExecutionFailed` with no rollback attempt —
`parsed_sql` is still `None` when the handler runs — contradicting the
claim that mutation-statement driver errors are always preceded by a
rollback attempt. -/
theorem c4_execute_error_no_rollback :
    execute_query_flow (.ok ()) "DML" "DELETE" ⟨true, false, false⟩ =
      { result := .error .queryExecutionFailed, rollbackAttempted := false } := by
  decide

/-- C5 counterexample: with `allowedRiskLevels = {HIGH}` the empty
statement gets riskLevel = HIGH ∈ allowedRiskLevels but isAllowed = false,
refuting the claimed biconditional for empty input. -/
theorem c5_empty_input_breaks_iff :
    (analyze_risk ⟨.DEVELOPMENT, [.HIGH], []⟩ noMatchOracle "").map
        (fun r => (r.riskLevel, r.isAllowed)) = .ok (.HIGH, false) ∧
    SQLRiskLevel.HIGH ∈ [SQLRiskLevel.HIGH] := by
  refine ⟨by decide, by decide⟩

/-- C6 counterexample: in the batch `SELECT ...; RENAME ...` the only DDL
member is RENAME, so the highest-priority operation among the members is
RENAME; the code resolves category = DDL but leaves the operation at the
first statement's `SELECT`, which is not even a DDL operation. -/
theorem c6_rename_only_ddl_not_resolved :
    resolveMultiStatement ["SELECT", "RENAME"] = ("DDL", "SELECT") ∧
    "RENAME" ∈ DDL_OPERATIONS ∧ "SELECT" ∉ DDL_OPERATIONS := by
  refine ⟨by decide, by decide, by decide⟩

/-- C7 counterexample: `RENAME` is in the DDL operation set, but the
interceptor's hard-coded `supported_operations` whitelist omits it, so a
RENAME statement is rejected at the operation-whitelist check instead of
passing it. -/
theorem c7_rename_rejected_by_whitelist :
    "RENAME" ∈ DDL_OPERATIONS ∧
    check_operation devDefaultConfig noMatchOracle "RENAME TABLE a TO b" =
      .error (.unsupported "RENAME") := by
  refine ⟨by decide, by decide⟩

/-- C10 counterexample: `validate_identifier` accepts the name
`"abc\n"`, which contains a character (the trailing newline) that is not
an ASCII letter, digit or underscore — Python's `$` matches just before a
trailing newline — refuting "identifiers containing ... any other
character are always rejected". -/
theorem c10_trailing_newline_accepted :
    validate_identifier "abc\n" = .ok true ∧
    '\n' ∈ "abc\n".data ∧ isWordChar '\n' = false := by
  refine ⟨by decide, by decide, by decide⟩

/-- C2 amended: a statement whose leading keyword is METADATA and which
matches no configured blocked pattern gets riskLevel = LOW in DEVELOPMENT;
in PRODUCTION, `_check_dangerous_patterns` flags every non-SELECT first
word (METADATA included) as dangerous, so the same statement gets
riskLevel = CRITICAL and isDangerous = true. -/
theorem c2_amended_metadata_risk (cfg : AnalyzerConfig) (oracle : RegexOracle)
    (sql : String)
    (hmeta : leadingOperation sql ∈ METADATA_OPERATIONS)
    (hpat : ∀ p ∈ cfg.blockedPatterns, oracle p (pyUpper (pyStrip sql)) = .ok false) :
    (analyze_risk cfg oracle sql).map (·.riskLevel) =
      .ok (if cfg.envType = .DEVELOPMENT then SQLRiskLevel.LOW else .CRITICAL) ∧
    (cfg.envType = .PRODUCTION →
      (analyze_risk cfg oracle sql).map (·.isDangerous) = .ok true) := by
  have hs : pyStrip sql ≠ "" :=
    pyStrip_ne_of_leadingOperation_mem sql METADATA_OPERATIONS (by decide) hmeta
  have hfw : firstWordOfUpper (pyStrip sql) = leadingOperation sql := by
    rw [firstWordOfUpper_eq]; rfl
  have hne : leadingOperation sql ≠ "SELECT" := by
    intro he; rw [he] at hmeta; exact absurd hmeta (by decide)
  have hd := check_dangerous_patterns_eq cfg oracle (pyStrip sql) hpat
  rw [hfw] at hd
  obtain ⟨env, allowed, pats⟩ := cfg
  cases env with
  | DEVELOPMENT =>
    have hd' : check_dangerous_patterns ⟨.DEVELOPMENT, allowed, pats⟩ oracle
        (pyStrip sql) = .ok false := by
      simpa using hd
    rw [analyze_risk_eq _ oracle sql false hs hd']
    simp [calculate_risk_level, hmeta, Except.map]
  | PRODUCTION =>
    have hd' : check_dangerous_patterns ⟨.PRODUCTION, allowed, pats⟩ oracle
        (pyStrip sql) = .ok true := by
      simpa [hne] using hd
    rw [analyze_risk_eq _ oracle sql true hs hd']
    simp [calculate_risk_level, Except.map]

/-- C2 witness: `SHOW TABLES` under the default DEVELOPMENT policy. -/
theorem c2_amended_metadata_risk_witness :
    (analyze_risk devDefaultConfig noMatchOracle "SHOW TABLES").map (·.riskLevel) =
      .ok (if devDefaultConfig.envType = .DEVELOPMENT then SQLRiskLevel.LOW else .CRITICAL) ∧
    (devDefaultConfig.envType = .PRODUCTION →
      (analyze_risk devDefaultConfig noMatchOracle "SHOW TABLES").map (·.isDangerous) = .ok true) :=
  c2_amended_metadata_risk devDefaultConfig noMatchOracle "SHOW TABLES"
    (by decide) (by simp [devDefaultConfig])

/-- C3 amended: for a WHERE-less UPDATE or DELETE matching no blocked
pattern, riskLevel is always at least HIGH; it is exactly CRITICAL for
DELETE in every environment, and for UPDATE it is HIGH in DEVELOPMENT but
CRITICAL in PRODUCTION (where every non-SELECT statement is flagged
dangerous). -/
theorem c3_amended_no_where_mutation_risk (cfg : AnalyzerConfig)
    (oracle : RegexOracle) (sql : String)
    (hop : leadingOperation sql = "UPDATE" ∨ leadingOperation sql = "DELETE")
    (hw : pyContains (pyUpper (pyStrip sql)) "WHERE" = false)
    (hpat : ∀ p ∈ cfg.blockedPatterns, oracle p (pyUpper (pyStrip sql)) = .ok false) :
    (∀ r, analyze_risk cfg oracle sql = .ok r →
      SQLRiskLevel.HIGH.toNat ≤ r.riskLevel.toNat) ∧
    (leadingOperation sql = "DELETE" →
      (analyze_risk cfg oracle sql).map (·.riskLevel) = .ok .CRITICAL) ∧
    (leadingOperation sql = "UPDATE" →
      (analyze_risk cfg oracle sql).map (·.riskLevel) =
        .ok (if cfg.envType = .DEVELOPMENT then SQLRiskLevel.HIGH else .CRITICAL)) := by
  have hs : pyStrip sql ≠ "" := by
    refine pyStrip_ne_of_leadingOperation_mem sql ["UPDATE", "DELETE"] (by decide) ?_
    rcases hop with h | h <;> simp [h]
  have hfw : firstWordOfUpper (pyStrip sql) = leadingOperation sql := by
    rw [firstWordOfUpper_eq]; rfl
  have hne : leadingOperation sql ≠ "SELECT" := by
    rcases hop with h | h <;> rw [h] <;> decide
  have hd := check_dangerous_patterns_eq cfg oracle (pyStrip sql) hpat
  rw [hfw] at hd
  obtain ⟨env, allowed, pats⟩ := cfg
  cases env with
  | DEVELOPMENT =>
    have hd' : check_dangerous_patterns ⟨.DEVELOPMENT, allowed, pats⟩ oracle
        (pyStrip sql) = .ok false := by
      simpa using hd
    rw [analyze_risk_eq _ oracle sql false hs hd']
    rcases hop with h | h <;>
      simp [h, calculate_risk_level, hw, Except.map, SQLRiskLevel.toNat,
        DDL_OPERATIONS, METADATA_OPERATIONS]
  | PRODUCTION =>
    have hd' : check_dangerous_patterns ⟨.PRODUCTION, allowed, pats⟩ oracle
        (pyStrip sql) = .ok true := by
      simpa [hne] using hd
    rw [analyze_risk_eq _ oracle sql true hs hd']
    simp [calculate_risk_level, Except.map, SQLRiskLevel.toNat]

/-- C3 witness: `DELETE FROM t` under the default DEVELOPMENT policy. -/
theorem c3_amended_no_where_mutation_risk_witness :
    (∀ r, analyze_risk devDefaultConfig noMatchOracle "DELETE FROM t" = .ok r →
      SQLRiskLevel.HIGH.toNat ≤ r.riskLevel.toNat) ∧
    (leadingOperation "DELETE FROM t" = "DELETE" →
      (analyze_risk devDefaultConfig noMatchOracle "DELETE FROM t").map (·.riskLevel) =
        .ok .CRITICAL) ∧
    (leadingOperation "DELETE FROM t" = "UPDATE" →
      (analyze_risk devDefaultConfig noMatchOracle "DELETE FROM t").map (·.riskLevel) =
        .ok (if devDefaultConfig.envType = .DEVELOPMENT then SQLRiskLevel.HIGH else .CRITICAL)) :=
  c3_amended_no_where_mutation_risk devDefaultConfig noMatchOracle "DELETE FROM t"
    (by decide) (by decide) (by simp [devDefaultConfig])

/-- C4 amended: when `execute_query` surfaces a driver-level
`QueryExecutionFailed`, a rollback was attempted exactly when the error
occurred after a successful `cursor.execute` (so `parsed_sql` was set) and
the parsed operation type is UPDATE, DELETE or INSERT; in particular a
driver error during the execute call itself is surfaced with no rollback
attempt, even for mutation statements. -/
theorem c4_amended_rollback_characterisation (admission : Except Unit Unit)
    (category operationType : String) (d : DriverBehavior)
    (h : (execute_query_flow admission category operationType d).result =
      .error .queryExecutionFailed) :
    (execute_query_flow admission category operationType d).rollbackAttempted = true ↔
      (d.execRaises = false ∧ operationType ∈ ["UPDATE", "DELETE", "INSERT"]) := by
  obtain ⟨de, dc, df⟩ := d
  cases admission with
  | error e => simp [execute_query_flow] at h
  | ok u =>
    cases u
    cases de with
    | true => simp [execute_query_flow]
    | false =>
      by_cases hm : category = "DML" ∧ operationType ∈ ["UPDATE", "DELETE", "INSERT"]
      · rcases hm with ⟨hcat, hops⟩
        subst hcat
        have hops' : operationType = "UPDATE" ∨ operationType = "DELETE" ∨
            operationType = "INSERT" := by simpa using hops
        rcases hops' with hop | hop | hop <;> subst hop <;>
          cases dc <;> cases df <;>
            first
              | decide
              | exact absurd h (by decide)
      · have hm' : ¬(category = "DML" ∧ (operationType = "UPDATE" ∨
            operationType = "DELETE" ∨ operationType = "INSERT")) := by
          simpa using hm
        cases df with
        | true =>
          cases dc <;> simp [execute_query_flow] <;> rw [if_neg hm'] <;>
            by_cases hmeta : category = "METADATA" <;> simp [hmeta]
        | false =>
          cases dc <;> simp [execute_query_flow] at h <;> rw [if_neg hm'] at h <;>
            simp at h

/-- C4 witness: a commit-time driver error on an INSERT is surfaced after
a rollback attempt. -/
theorem c4_amended_rollback_characterisation_witness :
    (execute_query_flow (.ok ()) "DML" "INSERT"
        ⟨false, true, false⟩).rollbackAttempted = true :=
  (c4_amended_rollback_characterisation (.ok ()) "DML" "INSERT"
    ⟨false, true, false⟩ (by decide)).mpr (by decide)

/-- C5 amended: the risk level computed by `analyze_risk` never depends on
`allowedRiskLevels`; for non-empty statements `isAllowed` holds exactly
when the risk level is in `allowedRiskLevels`; for empty or
whitespace-only statements the hard-coded empty-input record is returned,
with riskLevel = HIGH and isAllowed = false regardless of
`allowedRiskLevels`. -/
theorem c5_amended_allowed_iff (env : EnvironmentType)
    (A B : List SQLRiskLevel) (pats : List String) (oracle : RegexOracle)
    (sql : String) (r r' : RiskAnalysis)
    (h : analyze_risk ⟨env, A, pats⟩ oracle sql = .ok r)
    (h' : analyze_risk ⟨env, B, pats⟩ oracle sql = .ok r') :
    r'.riskLevel = r.riskLevel ∧
    (pyStrip sql ≠ "" → (r.isAllowed = true ↔ r.riskLevel ∈ A)) ∧
    (pyStrip sql = "" → r.riskLevel = .HIGH ∧ r.isAllowed = false) := by
  by_cases hs : pyStrip sql = ""
  · unfold analyze_risk at h h'
    rw [if_pos hs] at h h'
    cases h
    cases h'
    exact ⟨rfl, fun hc => absurd hs hc, fun _ => ⟨rfl, rfl⟩⟩
  · have hsame : check_dangerous_patterns ⟨env, B, pats⟩ oracle (pyStrip sql) =
        check_dangerous_patterns ⟨env, A, pats⟩ oracle (pyStrip sql) := rfl
    unfold analyze_risk at h h'
    rw [if_neg hs] at h h'
    rw [hsame] at h'
    cases hd : check_dangerous_patterns ⟨env, A, pats⟩ oracle (pyStrip sql) with
    | error e => rw [hd] at h; cases h
    | ok b =>
      rw [hd] at h h'
      cases h
      cases h'
      refine ⟨rfl, fun _ => ?_, fun hc => absurd hc hs⟩
      simp

/-- The risk-analysis record for `SELECT 1` under an allowed set `A`
(used by the C5 witness). -/
def select1Record (allowed : Bool) : RiskAnalysis :=
  { operation := "SELECT", operationType := "DML", isDangerous := false
    affectedTables := []
    estimatedImpact :=
      { operation := "SELECT", estimatedRows := some 100
        needsWhere := false, hasWhere := false }
    riskLevel := .LOW, isAllowed := allowed }

/-- C5 witness: `SELECT 1` analysed under `{LOW, MEDIUM}` and under
`{HIGH}`: the risk level agrees and admission tracks membership. -/
theorem c5_amended_allowed_iff_witness :
    (select1Record false).riskLevel = (select1Record true).riskLevel ∧
    (pyStrip "SELECT 1" ≠ "" →
      ((select1Record true).isAllowed = true ↔
        (select1Record true).riskLevel ∈ [SQLRiskLevel.LOW, .MEDIUM])) ∧
    (pyStrip "SELECT 1" = "" →
      (select1Record true).riskLevel = .HIGH ∧
      (select1Record true).isAllowed = false) :=
  c5_amended_allowed_iff .DEVELOPMENT [.LOW, .MEDIUM] [.HIGH] [] noMatchOracle
    "SELECT 1" (select1Record true) (select1Record false) (by decide) (by decide)

/-- Modelled from the spec for the C6 refinement comparison: the
highest-priority category among the member statements, under
DDL > DML > METADATA. -/
def specDominantCategory (ops : List String) : String :=
  let cats := ops.map get_operation_category
  if "DDL" ∈ cats then "DDL"
  else if "DML" ∈ cats then "DML"
  else if "METADATA" ∈ cats then "METADATA"
  else "UNKNOWN"

/-- Modelled from the spec for the C6 refinement comparison: the
highest-priority operation among the member statements of the dominant
category, under DROP/TRUNCATE > ALTER > CREATE within DDL and
DELETE > UPDATE > INSERT > SELECT within DML; a DDL batch whose only DDL
operation is RENAME resolves to RENAME, and a DML batch whose only DML
operation is MERGE resolves to MERGE. -/
def specDominantOperation (ops : List String) : String :=
  let cats := ops.map get_operation_category
  if "DDL" ∈ cats then
    if "DROP" ∈ ops then "DROP"
    else if "TRUNCATE" ∈ ops then "TRUNCATE"
    else if "ALTER" ∈ ops then "ALTER"
    else if "CREATE" ∈ ops then "CREATE"
    else "RENAME"
  else if "DML" ∈ cats then
    if "DELETE" ∈ ops then "DELETE"
    else if "UPDATE" ∈ ops then "UPDATE"
    else if "INSERT" ∈ ops then "INSERT"
    else if "SELECT" ∈ ops then "SELECT"
    else "MERGE"
  else ops.headD ""

/-- C6 amended: the code's multi-statement resolution agrees with the
spec's priority resolution whenever the dominant category's ranked
operations are actually present — i.e. a DDL-dominant batch contains one
of DROP/TRUNCATE/ALTER/CREATE, and a DML-dominant batch one of
DELETE/UPDATE/INSERT/SELECT.  When a DDL-dominant batch contains none of
the four ranked DDL operations (its only DDL member is RENAME), the code
instead leaves the resolved operation at the first statement's operation
type. -/
theorem c6_amended_priority_resolution :
    (∀ ops : List String, 1 < ops.length →
      ("DDL" ∈ ops.map get_operation_category ∨
        "DML" ∈ ops.map get_operation_category) →
      ("DDL" ∈ ops.map get_operation_category →
        ("DROP" ∈ ops ∨ "TRUNCATE" ∈ ops ∨ "ALTER" ∈ ops ∨ "CREATE" ∈ ops)) →
      ("DDL" ∉ ops.map get_operation_category →
        "DML" ∈ ops.map get_operation_category →
        ("DELETE" ∈ ops ∨ "UPDATE" ∈ ops ∨ "INSERT" ∈ ops ∨ "SELECT" ∈ ops)) →
      resolveMultiStatement ops =
        (specDominantCategory ops, specDominantOperation ops)) ∧
    (∀ ops : List String, 1 < ops.length →
      "DDL" ∈ ops.map get_operation_category →
      "DROP" ∉ ops → "TRUNCATE" ∉ ops → "ALTER" ∉ ops → "CREATE" ∉ ops →
      resolveMultiStatement ops = ("DDL", ops.headD "")) := by
  constructor
  · intro ops hlen hcats hddl hdml
    unfold resolveMultiStatement specDominantCategory specDominantOperation
    rw [if_pos hlen]
    by_cases h1 : "DDL" ∈ ops.map get_operation_category
    · rw [if_pos h1, if_pos h1, if_pos h1]
      rcases hddl h1 with h | h | h | h
      · simp [h]
      · by_cases hdrop : "DROP" ∈ ops <;> simp [hdrop, h]
      · by_cases hdrop : "DROP" ∈ ops <;>
          by_cases htr : "TRUNCATE" ∈ ops <;> simp [hdrop, htr, h]
      · by_cases hdrop : "DROP" ∈ ops <;>
          by_cases htr : "TRUNCATE" ∈ ops <;>
            by_cases hal : "ALTER" ∈ ops <;> simp [hdrop, htr, hal, h]
    · have h2 : "DML" ∈ ops.map get_operation_category := by
        rcases hcats with h | h
        · exact absurd h h1
        · exact h
      rw [if_neg h1, if_neg h1, if_neg h1, if_pos h2, if_pos h2, if_pos h2]
      rcases hdml h1 h2 with h | h | h | h
      · simp [h]
      · by_cases hdel : "DELETE" ∈ ops <;> simp [hdel, h]
      · by_cases hdel : "DELETE" ∈ ops <;>
          by_cases hup : "UPDATE" ∈ ops <;> simp [hdel, hup, h]
      · by_cases hdel : "DELETE" ∈ ops <;>
          by_cases hup : "UPDATE" ∈ ops <;>
            by_cases hins : "INSERT" ∈ ops <;> simp [hdel, hup, hins, h]
  · intro ops hlen h1 hdrop htr hal hcr
    unfold resolveMultiStatement
    rw [if_pos hlen, if_pos h1, if_neg hdrop, if_neg htr, if_neg hal, if_neg hcr]

/-- C6 witness: `SELECT ...; DROP ...` resolves to (DDL, DROP) on both the
code side and the spec side. -/
theorem c6_amended_priority_resolution_witness :
    resolveMultiStatement ["SELECT", "DROP"] =
      (specDominantCategory ["SELECT", "DROP"],
       specDominantOperation ["SELECT", "DROP"]) :=
  c6_amended_priority_resolution.1 ["SELECT", "DROP"] (by decide) (by decide)
    (by decide) (by decide)

/-- C7 amended, part of the statement: the interceptor's whitelist is the
union of the three operation sets minus RENAME. -/
theorem c7_amended_whitelist :
    (∀ op : String, op ∈ supportedOperations ↔
      ((op ∈ DDL_OPERATIONS ∨ op ∈ DML_OPERATIONS ∨ op ∈ METADATA_OPERATIONS) ∧
        op ≠ "RENAME")) ∧
    (∀ (cfg : AnalyzerConfig) (oracle : RegexOracle) (sql : String),
      sql.length ≤ maxSqlLength →
      pySplit (pyStrip sql) ≠ [] →
      (check_operation cfg oracle sql =
          .error (.unsupported (leadingOperation sql)) ↔
        leadingOperation sql ∉ supportedOperations)) := by
  constructor
  · intro op
    simp only [supportedOperations, DDL_OPERATIONS, DML_OPERATIONS,
      METADATA_OPERATIONS, List.mem_cons, List.not_mem_nil, or_false]
    constructor
    · intro h
      rcases h with h | h | h | h | h | h | h | h | h | h | h | h | h | h | h | h | h | h <;>
        subst h <;> exact ⟨by tauto, by decide⟩
    · rintro ⟨h, hne⟩
      rcases h with h | h
      · rcases h with h | h | h | h | h <;> subst h <;> tauto
      · rcases h with h | h
        · rcases h with h | h | h | h | h <;> subst h <;> tauto
        · rcases h with h | h | h | h | h | h | h | h | h <;> subst h <;> tauto
  · intro cfg oracle sql hlen hsplit
    have hs : pyStrip sql ≠ "" := by
      intro he
      apply hsplit
      rw [he]
      decide
    cases hps : pySplit (pyStrip sql) with
    | nil => exact absurd hps hsplit
    | cons w ws =>
      have hop : leadingOperation sql = pyUpper w := by
        unfold leadingOperation
        rw [hps]
        rfl
      rw [hop]
      unfold check_operation check_operation_body
      rw [if_neg hs, if_neg (by omega : ¬ sql.length > maxSqlLength), hps]
      simp only [List.head?_cons]
      by_cases hsup : pyUpper w ∈ supportedOperations
      · rw [if_pos hsup]
        cases ha : analyze_risk cfg oracle sql with
        | error e => simp [hsup]
        | ok ra =>
          by_cases hd : ra.isDangerous = true
          · simp [hd, hsup]
          · by_cases hal : ra.isAllowed = true <;> simp [hd, hal, hsup]
      · rw [if_neg hsup]
        simp [hsup]

/-- C7 witness: `GRANT`, which is in none of the three operation sets, is
rejected by the whitelist check. -/
theorem c7_amended_whitelist_witness :
    check_operation devDefaultConfig noMatchOracle "GRANT ALL ON t TO u" =
      .error (.unsupported (leadingOperation "GRANT ALL ON t TO u")) :=
  (c7_amended_whitelist.2 devDefaultConfig noMatchOracle "GRANT ALL ON t TO u"
    (by decide) (by decide)).mpr (by decide)

/-- C8: `parse_query` is total by construction over every input string and
every behaviour of the `sqlparse` call (success with any statement list,
or a raised exception, absorbed by the fallback); empty or whitespace-only
input yields the invalid record with category UNKNOWN and empty operation,
and more generally every invalid result carries `operationType = ""` and
`category = "UNKNOWN"`. -/
theorem c8_parse_query_total_and_empty (sql : String) (oracle : ParseOracle) :
    (pyStrip sql = "" →
      parse_query sql oracle =
        { operationType := "", tables := [], hasWhere := false, hasLimit := false
          isValid := false, normalizedQuery := "", category := "UNKNOWN"
          multiStatement := false, statementCount := 0 }) ∧
    ((parse_query sql oracle).isValid = false →
      (parse_query sql oracle).operationType = "" ∧
      (parse_query sql oracle).category = "UNKNOWN") := by
  by_cases hs : pyStrip sql = ""
  · unfold parse_query
    rw [if_pos hs]
    exact ⟨fun _ => rfl, fun _ => ⟨rfl, rfl⟩⟩
  · refine ⟨fun hc => absurd hc hs, ?_⟩
    cases oracle with
    | error e =>
      intro hv
      simp only [parse_query, fallback_parse, if_neg hs] at hv ⊢
      have hop : (pySplit (pyUpper (pyStrip sql))).headD "" = "" := by
        simpa using hv
      rw [hop]
      refine ⟨rfl, by decide⟩
    | ok pr =>
      obtain ⟨formatted, parsed⟩ := pr
      intro hv
      simp only [parse_query, if_neg hs] at hv ⊢
      by_cases hp : parsed = []
      · rw [if_pos hp] at hv ⊢
        exact ⟨rfl, rfl⟩
      · rw [if_neg hp] at hv
        simp at hv

/-- C8 witness: whitespace-only input yields the invalid UNKNOWN record. -/
theorem c8_parse_query_total_and_empty_witness :
    parse_query " \t " (.ok ("", [])) =
      { operationType := "", tables := [], hasWhere := false, hasLimit := false
        isValid := false, normalizedQuery := "", category := "UNKNOWN"
        multiStatement := false, statementCount := 0 } :=
  (c8_parse_query_total_and_empty " \t " (.ok ("", []))).1 (by decide)

/-- C9: `check_operation` never returns False: on every input and every
regex-oracle behaviour it either returns True or raises a
`SecurityException`, and a non-`SecurityException` escaping the body (the
analyzer's `re.error`) is re-raised as the catch-all `SecurityException`
(`internal`). -/
theorem c9_check_operation_never_false (cfg : AnalyzerConfig)
    (oracle : RegexOracle) (sql : String) :
    (check_operation cfg oracle sql = .ok true ∨
      ∃ r : SecReason, check_operation cfg oracle sql = .error r) ∧
    (check_operation_body cfg oracle sql = .error .pyEx →
      check_operation cfg oracle sql = .error .internal) := by
  constructor
  · unfold check_operation
    cases hb : check_operation_body cfg oracle sql with
    | ok b =>
      have hbt : b = true := by
        unfold check_operation_body at hb
        repeat' split at hb
        all_goals simp_all
      subst hbt
      exact Or.inl rfl
    | error e =>
      cases e with
      | secEx r => exact Or.inr ⟨r, rfl⟩
      | pyEx => exact Or.inr ⟨.internal, rfl⟩
  · intro h
    unfold check_operation
    rw [h]

/-- C9 witness: an invalid blocked pattern makes the analyzer raise, and
the interceptor surfaces it as the catch-all `SecurityException`. -/
theorem c9_check_operation_never_false_witness :
    check_operation ⟨.DEVELOPMENT, [.LOW], ["("]⟩ (fun _ _ => .error ())
      "SELECT 1" = .error .internal :=
  (c9_check_operation_never_false ⟨.DEVELOPMENT, [.LOW], ["("]⟩
    (fun _ _ => .error ()) "SELECT 1").2 (by decide)

/-- Unfolding of the embedded `re.match` semantics for
`^[a-zA-Z0-9_]+$`. -/
theorem identifierRegexMatch_iff (name : String) :
    identifierRegexMatch name = true ↔
      ((name.data ≠ [] ∧ name.data.all isWordChar = true) ∨
       (name.data.getLast? = some '\n' ∧ name.data.dropLast ≠ [] ∧
        name.data.dropLast.all isWordChar = true)) := by
  unfold identifierRegexMatch
  simp [List.isEmpty_iff, and_assoc]

/-- C10 amended: `validate_identifier` returns True exactly when the name
matches Python's `^[a-zA-Z0-9_]+$` — a non-empty run of ASCII letters,
digits and underscores, optionally followed by one trailing newline (which
Python's `$` also accepts); any name with a non-word character anywhere
before the last position still always raises `ValidationError`. -/
theorem c10_amended_identifier_charset :
    (∀ name : String, validate_identifier name = .ok true ↔
      ((name.data ≠ [] ∧ name.data.all isWordChar = true) ∨
       (name.data.getLast? = some '\n' ∧ name.data.dropLast ≠ [] ∧
        name.data.dropLast.all isWordChar = true))) ∧
    (∀ name : String, (∃ c ∈ name.data.dropLast, isWordChar c = false) →
      validate_identifier name = .error ()) := by
  have hfirst : ∀ name : String, validate_identifier name = .ok true ↔
      ((name.data ≠ [] ∧ name.data.all isWordChar = true) ∨
       (name.data.getLast? = some '\n' ∧ name.data.dropLast ≠ [] ∧
        name.data.dropLast.all isWordChar = true)) := by
    intro name
    rw [← identifierRegexMatch_iff]
    unfold validate_identifier
    by_cases he : name = ""
    · subst he
      decide
    · rw [if_neg he]
      by_cases hm : identifierRegexMatch name = true
      · rw [if_pos hm]
        simp [hm]
      · rw [if_neg hm]
        simp [hm]
  refine ⟨hfirst, ?_⟩
  intro name hex
  obtain ⟨c, hc, hw⟩ := hex
  cases hv : validate_identifier name with
  | error e => cases e; rfl
  | ok b =>
    exfalso
    have hb : b = true := by
      unfold validate_identifier at hv
      split_ifs at hv <;> simp_all
    subst hb
    rcases (hfirst name).mp hv with ⟨h1, h2⟩ | ⟨h1, h2, h3⟩
    · have hcd : c ∈ name.data := (List.dropLast_prefix name.data).subset hc
      have := List.all_eq_true.mp h2 c hcd
      simp_all
    · have := List.all_eq_true.mp h3 c hc
      simp_all

/-- C10 witness: `a b` (an embedded space) raises `ValidationError`. -/
theorem c10_amended_identifier_charset_witness :
    validate_identifier "a b" = .error () :=
  c10_amended_identifier_charset.2 "a b" ⟨' ', by decide, by decide⟩
